import Mathlib

/-!
Shallow embedding of the NewslyBot chat application (`man.py`): the session
memory store, the Tavily search client, the dispatcher `chatbot_response`,
and the UI input handling, with the two outbound services (Tavily HTTP and
the Gemini chat session) modelled as oracles passed in as parameters.
-/

namespace NewslyBot

/-- Does the character list start with the given pattern list? -/
def startsWithList : List Char → List Char → Bool
  | _, [] => true
  | [], _ :: _ => false
  | c :: cs, d :: ds => c == d && startsWithList cs ds

/-- Substring occurrence on character lists: `hasSubList sub l` is true iff
`sub` occurs contiguously somewhere in `l`. -/
def hasSubList (sub : List Char) : List Char → Bool
  | [] => startsWithList [] sub
  | c :: cs => startsWithList (c :: cs) sub || hasSubList sub cs

/-- Python `sub in s` on strings: contiguous substring test. -/
def strContains (s sub : String) : Bool :=
  hasSubList sub.data s.data

/-- Python `s.lower()` (ASCII case folding, which is all the dispatcher's
keyword checks need). -/
def lowerStr (s : String) : String :=
  ⟨s.data.map Char.toLower⟩

/-- One search hit parsed from the Tavily JSON `results` array.  The code only
reads the `title` and `url` fields via `article.get`, so a hit is modelled by
those two optional fields (`none` = key absent, making `get` fall back to its
default). -/
structure Hit where
  title? : Option String
  url?   : Option String
  deriving DecidableEq

/-- What `fetch_from_tavily` returns and what gets stored per user: either the
parsed list of hits (HTTP 200) or a human-readable failure string. -/
inductive TavilyStored where
  | hits (l : List Hit)
  | failureStr (s : String)
  deriving DecidableEq

/-- Oracle for the single `requests.get` call inside `fetch_from_tavily`:
either an HTTP response with a status code and the parsed `results` field
(absent field = empty list), or a transport-level exception. -/
inductive HttpOutcome where
  | response (status : Nat) (results : List Hit)
  | exn
  deriving DecidableEq

def tavily_api_failure_msg : String :=
  "An error occurred while calling the Tavily API."

def tavily_http_failure_msg (query : String) : String :=
  "Sorry, I couldn\x27t fetch information from Tavily for \x27" ++ query ++ "\x27."

/-- `fetch_from_tavily`: on HTTP 200 return `data.get("results", [])`; on a
non-200 status return the per-query failure string; on any exception return
the generic API failure string. -/
def fetch_from_tavily (query : String) (http : HttpOutcome) : TavilyStored :=
  match http with
  | .response status results =>
      if status = 200 then .hits results
      else .failureStr (tavily_http_failure_msg query)
  | .exn => .failureStr tavily_api_failure_msg

/-- Values held in the per-user key/value memory: strings
(`last_user_input`, `last_gemini_response`) or a stored Tavily response
(`last_tavily_response`). -/
inductive MemValue where
  | str (s : String)
  | tav (t : TavilyStored)
  deriving DecidableEq

/-- Python dict lookup (`d.get(k)` / `k in d`) on an association list. -/
def dictFind {α : Type} : List (String × α) → String → Option α
  | [], _ => none
  | (k2, v) :: rest, k => if k2 = k then some v else dictFind rest k

/-- Python dict update `d[k] = v`: overwrite the binding if present,
otherwise append it. -/
def dictSet {α : Type} : List (String × α) → String → α → List (String × α)
  | [], k, v => [(k, v)]
  | (k2, v2) :: rest, k, v =>
      if k2 = k then (k, v) :: rest else (k2, v2) :: dictSet rest k v

/-- One `{role, content}` conversation turn. -/
structure ChatTurn where
  role : String
  content : String
  deriving DecidableEq

/-- The three `st.session_state` containers the chatbot mutates. -/
structure SessionState where
  conversation_memory : List ChatTurn
  user_memory : List (String × List (String × MemValue))
  tavily_response_memory : List (String × TavilyStored)
  deriving DecidableEq

/-- `update_memory(user_id, key, value)`: ensure the user's inner dict exists,
then set `key` to `value` in it. -/
def update_memory (st : SessionState) (user_id key : String) (value : MemValue) :
    SessionState :=
  let inner := (dictFind st.user_memory user_id).getD []
  { st with user_memory := dictSet st.user_memory user_id (dictSet inner key value) }

/-- `get_user_memory(user_id, key)`:
`st.session_state.user_memory.get(user_id, \x7b\x7d).get(key, None)`. -/
def get_user_memory (st : SessionState) (user_id key : String) : Option MemValue :=
  dictFind ((dictFind st.user_memory user_id).getD []) key

/-- Python truthiness of a stored Tavily response (`if last_tavily_response:`):
a list is truthy iff non-empty, a string is truthy iff non-empty. -/
def storedTruthy : TavilyStored → Bool
  | .hits l => !l.isEmpty
  | .failureStr s => !(s == "")

/-- One line of the synthetic instruction:
`f"Title: (article.get title), Link: (article.get url)\n"`. -/
def article_line (a : Hit) : String :=
  "Title: " ++ a.title?.getD "No Title" ++ ", Link: " ++ a.url?.getD "No URL" ++ "\n"

/-- The synthetic summarization instruction built by the loop
`for article in hits: message += ...`, starting from the fixed header. -/
def summarize_message (l : List Hit) : String :=
  l.foldl (fun acc a => acc ++ article_line a) "Summarize the following articles:\n"

/-- The `for article in last_tavily_response[:5]` loop applied to a stored
value of either shape.  On a list of hits it builds the instruction from the
first five.  On a stored failure string, slicing yields characters and
`article.get` raises `AttributeError` on the first one, modelled as `.error`;
an empty string runs the loop zero times, leaving just the header. -/
def summarize_from_stored : TavilyStored → Except Unit String
  | .hits l => .ok (summarize_message (l.take 5))
  | .failureStr s => if s == "" then .ok (summarize_message []) else .error ()

def no_results_msg : String := "❌ No search results found from Tavily."

def generic_failure_msg : String :=
  "An error occurred while generating a response. Please try again later."

/-- The Gemini oracle: `chat_session.send_message(m).text` either yields a
reply text or raises (provider-side failure). -/
def Gemini : Type := String → Except Unit String

/-- The general-query branch of `chatbot_response` (lines 126-137): send the
raw input; on success record `last_user_input` / `last_gemini_response` and
append the user and assistant turns to `conversation_memory`.  The result also
carries the list of messages sent to the chat session this turn; an `.error`
is an uncaught exception escaping with the state as mutated so far. -/
def general_query (gemini : Gemini) (user_input user_id : String)
    (st : SessionState) :
    Except (SessionState × List String) (String × SessionState × List String) :=
  match gemini user_input with
  | .error _ => .error (st, [user_input])
  | .ok text =>
      let st1 := update_memory st user_id "last_user_input" (.str user_input)
      let st2 := update_memory st1 user_id "last_gemini_response" (.str text)
      let st3 := { st2 with conversation_memory := (st2.conversation_memory ++ [⟨"user", user_input⟩, ⟨"assistant", text⟩]) }
      .ok (text, st3, [user_input])

/-- The body of `chatbot_response`, i.e. everything inside the `try:` block
(lines 100-137), with exceptions modelled as `.error` carrying the state as
mutated up to the raise point and the messages sent so far. -/
def chatbot_body (gemini : Gemini) (http : HttpOutcome)
    (user_input user_id : String) (st : SessionState) :
    Except (SessionState × List String) (String × SessionState × List String) :=
  if strContains (lowerStr user_input) "search" || strContains (lowerStr user_input) "find" then
    let tavily_response := fetch_from_tavily user_input http
    let st1 := update_memory st user_id "last_tavily_response" (.tav tavily_response)
    let st2 := { st1 with tavily_response_memory := (dictSet st1.tavily_response_memory user_id tavily_response) }
    match tavily_response with
    | .hits results =>
        if 0 < results.length then
          let msg := summarize_message (results.take 5)
          match gemini msg with
          | .ok text => .ok (text, st2, [msg])
          | .error _ => .error (st2, [msg])
        else .ok (no_results_msg, st2, [])
    | .failureStr _ => .ok (no_results_msg, st2, [])
  else if strContains (lowerStr user_input) "summarize" then
    match dictFind st.tavily_response_memory user_id with
    | some stored =>
        if storedTruthy stored then
          match summarize_from_stored stored with
          | .error _ => .error (st, [])
          | .ok msg =>
              match gemini msg with
              | .ok text => .ok (text, st, [msg])
              | .error _ => .error (st, [msg])
        else general_query gemini user_input user_id st
    | none => general_query gemini user_input user_id st
  else general_query gemini user_input user_id st

/-- The observable outcome of one `chatbot_response` call: the returned string,
the session state afterwards, and the messages sent to the chat session. -/
structure TurnOutcome where
  reply : String
  state : SessionState
  sent  : List String
  deriving DecidableEq

/-- `chatbot_response`: run the body; any exception is caught by the
`except` handler and converted to the generic failure string. -/
def chatbot_response (gemini : Gemini) (http : HttpOutcome)
    (user_input user_id : String) (st : SessionState) : TurnOutcome :=
  match chatbot_body gemini http user_input user_id st with
  | .ok (text, st2, sent) => ⟨text, st2, sent⟩
  | .error (st2, sent) => ⟨generic_failure_msg, st2, sent⟩

def goodbye_msg : String := "Exiting chat. Goodbye! 👋"

/-- The outcome of one UI turn: what `st.write` prints (if anything), the
resulting session state, and whether `chatbot_response` was invoked. -/
structure UIOutcome where
  printed : Option String
  state : SessionState
  dispatcherCalled : Bool
  deriving DecidableEq

/-- The per-turn input handling of the Streamlit shell (lines 152-161):
exit keywords print the goodbye message and stop; otherwise a non-empty input
is dispatched to `chatbot_response` with user id `"user_1"` and the reply is
printed with the bot prefix label. -/
def user_input_turn (gemini : Gemini) (http : HttpOutcome) (input : String)
    (st : SessionState) : UIOutcome :=
  if lowerStr input == "q" || lowerStr input == "exit" || lowerStr input == "quit" then
    ⟨some goodbye_msg, st, false⟩
  else if input == "" then
    ⟨none, st, false⟩
  else
    let out := chatbot_response gemini http input "user_1" st
    ⟨some ("🤖 ChatBot: " ++ out.reply), out.state, true⟩

/-- The search call yields nothing usable: a non-200 status, a transport
exception, or a 200 response whose `results` list is empty. -/
def searchYieldsNothing (http : HttpOutcome) : Prop :=
  match http with
  | .response status results => status ≠ 200 ∨ results = []
  | .exn => True

theorem dictFind_dictSet_self {α : Type} (d : List (String × α)) (k : String) (v : α) :
    dictFind (dictSet d k v) k = some v := by
  induction d with
  | nil => simp [dictSet, dictFind]
  | cons hd tl ih =>
      obtain ⟨k2, v2⟩ := hd
      by_cases h : k2 = k <;> simp [dictSet, dictFind, h, ih]

theorem update_memory_conversation (st : SessionState) (u k : String) (v : MemValue) :
    (update_memory st u k v).conversation_memory = st.conversation_memory := rfl

theorem update_memory_tavily (st : SessionState) (u k : String) (v : MemValue) :
    (update_memory st u k v).tavily_response_memory = st.tavily_response_memory := rfl

theorem tavily_http_failure_msg_ne_empty (q : String) : tavily_http_failure_msg q ≠ "" := by
  intro h
  have hlen := congrArg String.length h
  simp [tavily_http_failure_msg, String.length_append] at hlen
  exact absurd hlen.1.1 (by decide)

/-- C1: on an input whose lowercased text contains "search" or "find", when the
search client returns a non-empty hit list, the synthetic instruction sent to
the chat session is exactly the summarization message built, in order, from the
first `min(N,5)` hits, and the dispatcher returns the chat session's reply. -/
theorem search_success_lists_min5 (gemini : Gemini) (results : List Hit)
    (user_input user_id reply : String) (st : SessionState)
    (hkw : strContains (lowerStr user_input) "search" = true ∨
           strContains (lowerStr user_input) "find" = true)
    (hn : 0 < results.length)
    (hg : gemini (summarize_message (results.take 5)) = .ok reply) :
    (chatbot_response gemini (.response 200 results) user_input user_id st).reply = reply ∧
    (chatbot_response gemini (.response 200 results) user_input user_id st).sent
      = [summarize_message (results.take 5)] ∧
    (results.take 5).length = min results.length 5 := by
  have hcond : (strContains (lowerStr user_input) "search" ||
      strContains (lowerStr user_input) "find") = true := by
    rcases hkw with h | h <;> simp [h]
  refine ⟨?_, ?_, ?_⟩ <;>
    simp [chatbot_response, chatbot_body, hcond, fetch_from_tavily, hn, hg,
      List.length_take, Nat.min_comm]

/-- C1 witness: the searched scenario with two hits returns the model reply
and sends the two-line instruction. -/
theorem search_success_lists_min5_witness :
    (chatbot_response (fun _ => Except.ok "SUMMARY")
        (.response 200 [⟨some "A", some "u1"⟩, ⟨some "B", some "u2"⟩])
        "search climate change" "user_1" ⟨[], [], []⟩).reply = "SUMMARY" ∧
    (chatbot_response (fun _ => Except.ok "SUMMARY")
        (.response 200 [⟨some "A", some "u1"⟩, ⟨some "B", some "u2"⟩])
        "search climate change" "user_1" ⟨[], [], []⟩).sent
      = [summarize_message ([⟨some "A", some "u1"⟩, ⟨some "B", some "u2"⟩] : List Hit)] ∧
    (([⟨some "A", some "u1"⟩, ⟨some "B", some "u2"⟩] : List Hit).take 5).length
      = min ([⟨some "A", some "u1"⟩, ⟨some "B", some "u2"⟩] : List Hit).length 5 :=
  search_success_lists_min5 (fun _ => Except.ok "SUMMARY")
    [⟨some "A", some "u1"⟩, ⟨some "B", some "u2"⟩]
    "search climate change" "user_1" "SUMMARY" ⟨[], [], []⟩
    (Or.inl (by decide)) (by decide) rfl

/-- C2: on an input whose lowercased text contains "search" or "find", when the
search yields zero hits, a non-200 status, or a transport exception, the
dispatcher returns the fixed "no results" message and sends nothing to the
chat session. -/
theorem search_failure_fixed_message (gemini : Gemini) (http : HttpOutcome)
    (user_input user_id : String) (st : SessionState)
    (hkw : strContains (lowerStr user_input) "search" = true ∨
           strContains (lowerStr user_input) "find" = true)
    (hfail : searchYieldsNothing http) :
    (chatbot_response gemini http user_input user_id st).reply = no_results_msg ∧
    (chatbot_response gemini http user_input user_id st).sent = [] := by
  have hcond : (strContains (lowerStr user_input) "search" ||
      strContains (lowerStr user_input) "find") = true := by
    rcases hkw with h | h <;> simp [h]
  cases http with
  | response status results =>
      rcases hfail with h | h
      · simp [chatbot_response, chatbot_body, hcond, fetch_from_tavily, h]
      · subst h
        by_cases hs : status = 200 <;>
          simp [chatbot_response, chatbot_body, hcond, fetch_from_tavily, hs]
  | exn => simp [chatbot_response, chatbot_body, hcond, fetch_from_tavily]

/-- C2 witness: a transport exception on a "search" input yields the fixed
message with no chat-session call. -/
theorem search_failure_fixed_message_witness :
    (chatbot_response (fun _ => Except.ok "X") .exn "find cats" "user_1"
        ⟨[], [], []⟩).reply = no_results_msg ∧
    (chatbot_response (fun _ => Except.ok "X") .exn "find cats" "user_1"
        ⟨[], [], []⟩).sent = [] :=
  search_failure_fixed_message (fun _ => Except.ok "X") .exn "find cats" "user_1"
    ⟨[], [], []⟩ (Or.inr (by decide)) trivial

/-- C3: an input whose lowercased text contains "summarize" but neither
"search" nor "find", with no stored search results for the user, falls through
to the general-query path: the raw input is sent to the chat session and its
reply is returned. -/
theorem summarize_no_stored_falls_through (gemini : Gemini) (http : HttpOutcome)
    (user_input user_id reply : String) (st : SessionState)
    (hs : strContains (lowerStr user_input) "search" = false)
    (hf : strContains (lowerStr user_input) "find" = false)
    (hsum : strContains (lowerStr user_input) "summarize" = true)
    (hnone : dictFind st.tavily_response_memory user_id = none)
    (hg : gemini user_input = .ok reply) :
    (chatbot_response gemini http user_input user_id st).sent = [user_input] ∧
    (chatbot_response gemini http user_input user_id st).reply = reply := by
  constructor <;>
    simp [chatbot_response, chatbot_body, hs, hf, hsum, hnone, general_query, hg]

/-- C3 witness: "summarize it" with empty memory is answered by the model on
the raw input. -/
theorem summarize_no_stored_falls_through_witness :
    (chatbot_response (fun _ => Except.ok "GEN") .exn "summarize it" "user_1"
        ⟨[], [], []⟩).sent = ["summarize it"] ∧
    (chatbot_response (fun _ => Except.ok "GEN") .exn "summarize it" "user_1"
        ⟨[], [], []⟩).reply = "GEN" :=
  summarize_no_stored_falls_through (fun _ => Except.ok "GEN") .exn "summarize it"
    "user_1" "GEN" ⟨[], [], []⟩ (by decide) (by decide) (by decide) rfl rfl

/-- C4: on the general-query path (no "search"/"find"/"summarize" in the
lowercased input), a successful chat-session call appends exactly the user turn
followed by the assistant turn to the conversation history. -/
theorem general_query_appends_two (gemini : Gemini) (http : HttpOutcome)
    (user_input user_id reply : String) (st : SessionState)
    (hs : strContains (lowerStr user_input) "search" = false)
    (hf : strContains (lowerStr user_input) "find" = false)
    (hsum : strContains (lowerStr user_input) "summarize" = false)
    (hg : gemini user_input = .ok reply) :
    (chatbot_response gemini http user_input user_id st).state.conversation_memory
      = st.conversation_memory ++ [⟨"user", user_input⟩, ⟨"assistant", reply⟩] := by
  simp [chatbot_response, chatbot_body, hs, hf, hsum, general_query, hg,
    update_memory_conversation]

/-- C4 witness: a plain question appends its user and assistant turns. -/
theorem general_query_appends_two_witness :
    (chatbot_response (fun _ => Except.ok "HI") .exn "hello" "user_1"
        ⟨[], [], []⟩).state.conversation_memory
      = ([] : List ChatTurn) ++ [⟨"user", "hello"⟩, ⟨"assistant", "HI"⟩] :=
  general_query_appends_two (fun _ => Except.ok "HI") .exn "hello" "user_1" "HI"
    ⟨[], [], []⟩ (by decide) (by decide) (by decide) rfl

/-- C5: the search path, and the summarize path when truthy stored results are
present, leave the conversation history unchanged: neither the synthetic
instruction nor the reply is appended. -/
theorem search_and_summarize_keep_history (gemini : Gemini) (http : HttpOutcome)
    (user_input user_id : String) (st : SessionState)
    (h : (strContains (lowerStr user_input) "search" = true ∨
          strContains (lowerStr user_input) "find" = true) ∨
         (strContains (lowerStr user_input) "search" = false ∧
          strContains (lowerStr user_input) "find" = false ∧
          strContains (lowerStr user_input) "summarize" = true ∧
          ∃ stored, dictFind st.tavily_response_memory user_id = some stored ∧
            storedTruthy stored = true)) :
    (chatbot_response gemini http user_input user_id st).state.conversation_memory
      = st.conversation_memory := by
  rcases h with hkw | ⟨hs, hf, hsum, stored, hst, htr⟩
  · have hcond : (strContains (lowerStr user_input) "search" ||
        strContains (lowerStr user_input) "find") = true := by
      rcases hkw with h | h <;> simp [h]
    cases http with
    | response status results =>
        by_cases h200 : status = 200
        · subst h200
          by_cases hlen : 0 < results.length
          · cases hgem : gemini (summarize_message (results.take 5)) <;>
              simp [chatbot_response, chatbot_body, hcond, fetch_from_tavily, hlen,
                hgem, update_memory_conversation]
          · simp [chatbot_response, chatbot_body, hcond, fetch_from_tavily, hlen,
              update_memory_conversation]
        · simp [chatbot_response, chatbot_body, hcond, fetch_from_tavily, h200,
            update_memory_conversation]
    | exn =>
        simp [chatbot_response, chatbot_body, hcond, fetch_from_tavily,
          update_memory_conversation]
  · cases stored with
    | hits l =>
        cases hgem : gemini (summarize_message (l.take 5)) <;>
          simp [chatbot_response, chatbot_body, hs, hf, hsum, hst, htr,
            summarize_from_stored, hgem]
    | failureStr s =>
        have hne : (s == "") = false := by
          cases hb : s == "" with
          | false => rfl
          | true => simp [storedTruthy, hb] at htr
        simp [chatbot_response, chatbot_body, hs, hf, hsum, hst, htr,
          summarize_from_stored, hne]

/-- C5 witness: a "search" turn with a transport failure leaves the history
untouched. -/
theorem search_and_summarize_keep_history_witness :
    (chatbot_response (fun _ => Except.ok "X") .exn "search cats" "user_1"
        ⟨[⟨"user", "hi"⟩], [], []⟩).state.conversation_memory
      = [(⟨"user", "hi"⟩ : ChatTurn)] :=
  search_and_summarize_keep_history (fun _ => Except.ok "X") .exn "search cats"
    "user_1" ⟨[⟨"user", "hi"⟩], [], []⟩ (Or.inl (Or.inl (by decide)))

/-- C6: the dispatcher always hands the UI a string: either the body succeeds
and its text is returned unchanged, or the body raises and the fixed generic
failure string is returned; nothing is re-raised. -/
theorem chatbot_response_always_string (gemini : Gemini) (http : HttpOutcome)
    (user_input user_id : String) (st : SessionState) :
    (∃ text st2 sent,
        chatbot_body gemini http user_input user_id st = .ok (text, st2, sent) ∧
        chatbot_response gemini http user_input user_id st = ⟨text, st2, sent⟩) ∨
    (∃ st2 sent,
        chatbot_body gemini http user_input user_id st = .error (st2, sent) ∧
        chatbot_response gemini http user_input user_id st
          = ⟨generic_failure_msg, st2, sent⟩) := by
  cases hb : chatbot_body gemini http user_input user_id st with
  | ok v =>
      obtain ⟨text, st2, sent⟩ := v
      exact Or.inl ⟨text, st2, sent, rfl, by simp [chatbot_response, hb]⟩
  | error e =>
      obtain ⟨st2, sent⟩ := e
      exact Or.inr ⟨st2, sent, rfl, by simp [chatbot_response, hb]⟩

/-- C7: an input equal, after lowercasing, to "q", "exit" or "quit" makes the
shell print only the goodbye message and never invoke the dispatcher. -/
theorem exit_keyword_skips_dispatcher (gemini : Gemini) (http : HttpOutcome)
    (input : String) (st : SessionState)
    (h : lowerStr input = "q" ∨ lowerStr input = "exit" ∨ lowerStr input = "quit") :
    user_input_turn gemini http input st = ⟨some goodbye_msg, st, false⟩ := by
  have hb : (lowerStr input == "q" || lowerStr input == "exit" ||
      lowerStr input == "quit") = true := by
    rcases h with h | h | h <;> simp [h]
  simp [user_input_turn, hb]

/-- C7 witness: "QUIT" prints the goodbye message without dispatching. -/
theorem exit_keyword_skips_dispatcher_witness :
    user_input_turn (fun _ => Except.ok "X") .exn "QUIT" ⟨[], [], []⟩
      = ⟨some goodbye_msg, ⟨[], [], []⟩, false⟩ :=
  exit_keyword_skips_dispatcher (fun _ => Except.ok "X") .exn "QUIT" ⟨[], [], []⟩
    (Or.inr (Or.inr (by decide)))

/-- C8: reading the user memory twice without an intervening update returns the
same value, and an absent user or key yields the sentinel `none`, never an
error. -/
theorem get_user_memory_stable (st : SessionState) (user_id key : String) :
    get_user_memory st user_id key = get_user_memory st user_id key ∧
    (dictFind st.user_memory user_id = none → get_user_memory st user_id key = none) ∧
    (∀ inner, dictFind st.user_memory user_id = some inner →
        dictFind inner key = none → get_user_memory st user_id key = none) := by
  refine ⟨rfl, ?_, ?_⟩
  · intro h; simp [get_user_memory, h, dictFind]
  · intro inner h hk; simp [get_user_memory, h, hk]

/-- C8 witness: an absent user yields `none`. -/
theorem get_user_memory_stable_witness :
    get_user_memory ⟨[], [], []⟩ "user_1" "last_tavily_response" = none :=
  (get_user_memory_stable ⟨[], [], []⟩ "user_1" "last_tavily_response").2.1 rfl

/-- C9: a failed search stores its failure string as the user's last results;
a later "summarize" input (without "search"/"find") then finds that non-empty
string truthy, the per-article attribute access raises, and the dispatcher
returns the generic failure string without calling the chat session. -/
theorem failed_search_then_summarize_generic (g1 g2 : Gemini)
    (http1 http2 : HttpOutcome) (input1 input2 user_id : String)
    (st st1 : SessionState)
    (hkw1 : strContains (lowerStr input1) "search" = true ∨
            strContains (lowerStr input1) "find" = true)
    (hfail : http1 = .exn ∨
             ∃ status results, http1 = .response status results ∧ status ≠ 200)
    (hst1 : st1 = (chatbot_response g1 http1 input1 user_id st).state)
    (h2s : strContains (lowerStr input2) "search" = false)
    (h2f : strContains (lowerStr input2) "find" = false)
    (h2sum : strContains (lowerStr input2) "summarize" = true) :
    (∃ s, dictFind st1.tavily_response_memory user_id = some (.failureStr s) ∧
        s ≠ "") ∧
    (chatbot_response g2 http2 input2 user_id st1).reply = generic_failure_msg ∧
    (chatbot_response g2 http2 input2 user_id st1).sent = [] := by
  have hcond : (strContains (lowerStr input1) "search" ||
      strContains (lowerStr input1) "find") = true := by
    rcases hkw1 with h | h <;> simp [h]
  obtain ⟨msg, hmsg, hne⟩ :
      ∃ msg, fetch_from_tavily input1 http1 = .failureStr msg ∧ msg ≠ "" := by
    rcases hfail with h | ⟨status, results, h, hstatus⟩
    · exact ⟨tavily_api_failure_msg, by simp [h, fetch_from_tavily], by decide⟩
    · exact ⟨tavily_http_failure_msg input1,
        by simp [h, fetch_from_tavily, hstatus],
        tavily_http_failure_msg_ne_empty input1⟩
  have hmem : dictFind st1.tavily_response_memory user_id
      = some (.failureStr msg) := by
    subst hst1
    simp [chatbot_response, chatbot_body, hcond, hmsg, update_memory_tavily,
      dictFind_dictSet_self]
  have hbe : (msg == "") = false := by
    cases hb : msg == "" with
    | false => rfl
    | true => exact absurd (by simpa using hb) hne
  refine ⟨⟨msg, hmem, hne⟩, ?_, ?_⟩ <;>
    simp [chatbot_response, chatbot_body, h2s, h2f, h2sum, hmem, storedTruthy,
      hbe, summarize_from_stored]

/-- C9 witness: a transport-failed "search x" turn followed by "summarize it"
returns the generic failure string with no chat-session call. -/
theorem failed_search_then_summarize_generic_witness :
    (∃ s, dictFind ((chatbot_response (fun _ => Except.ok "X") .exn "search x"
        "user_1" ⟨[], [], []⟩).state).tavily_response_memory "user_1"
        = some (.failureStr s) ∧ s ≠ "") ∧
    (chatbot_response (fun _ => Except.ok "Y") .exn "summarize it" "user_1"
        ((chatbot_response (fun _ => Except.ok "X") .exn "search x" "user_1"
          ⟨[], [], []⟩).state)).reply = generic_failure_msg ∧
    (chatbot_response (fun _ => Except.ok "Y") .exn "summarize it" "user_1"
        ((chatbot_response (fun _ => Except.ok "X") .exn "search x" "user_1"
          ⟨[], [], []⟩).state)).sent = [] :=
  failed_search_then_summarize_generic (fun _ => Except.ok "X")
    (fun _ => Except.ok "Y") .exn .exn "search x" "summarize it" "user_1"
    ⟨[], [], []⟩ _ (Or.inl (by decide)) (Or.inl rfl) rfl (by decide) (by decide)
    (by decide)

/-- C10: the exit check is whole-string equality, not substring matching: an
input that contains an exit keyword but is not exactly one of them after
lowercasing is handed to the dispatcher and processed as a normal turn. -/
theorem exit_keyword_needs_exact_match (gemini : Gemini) (http : HttpOutcome)
    (input : String) (st : SessionState)
    (hc : strContains (lowerStr input) "q" = true ∨
          strContains (lowerStr input) "exit" = true ∨
          strContains (lowerStr input) "quit" = true)
    (hne : ¬(lowerStr input = "q" ∨ lowerStr input = "exit" ∨
        lowerStr input = "quit")) :
    user_input_turn gemini http input st
      = ⟨some ("🤖 ChatBot: " ++ (chatbot_response gemini http input "user_1" st).reply),
         (chatbot_response gemini http input "user_1" st).state, true⟩ := by
  push_neg at hne
  obtain ⟨hq, hx, hqt⟩ := hne
  have hinput : (input == "") = false := by
    cases hb : input == "" with
    | false => rfl
    | true =>
        have : input = "" := by simpa using hb
        subst this
        rcases hc with h | h | h <;> exact absurd h (by decide)
  have hb : (lowerStr input == "q" || lowerStr input == "exit" ||
      lowerStr input == "quit") = false := by
    simp [hq, hx, hqt]
  simp [user_input_turn, hb, hinput]

/-- C10 witness: "quit now" contains "quit" yet reaches the dispatcher. -/
theorem exit_keyword_needs_exact_match_witness :
    user_input_turn (fun _ => Except.ok "R") .exn "quit now" ⟨[], [], []⟩
      = ⟨some ("🤖 ChatBot: " ++ (chatbot_response (fun _ => Except.ok "R") .exn
            "quit now" "user_1" ⟨[], [], []⟩).reply),
         (chatbot_response (fun _ => Except.ok "R") .exn "quit now" "user_1"
            ⟨[], [], []⟩).state, true⟩ :=
  exit_keyword_needs_exact_match (fun _ => Except.ok "R") .exn "quit now"
    ⟨[], [], []⟩ (Or.inr (Or.inr (by decide))) (by decide)

end NewslyBot
